import Mathlib

/-!
Verification of the HFpEF/CKD readmission-risk calculator.

The source is a single-page dashboard script: it loads three artifacts
(a trained classifier, a background sample, a feature-name list),
collects ten clinical values, predicts a readmission probability,
computes a SHAP linear attribution of that prediction, and renders a
percentage card with a three-tier risk label, a waterfall chart and one
interpretive sentence.

This file gives a shallow embedding of that script in Lean:
pure values are rationals, the pandas one-row DataFrame is a list of
(feature name, value) columns, the opaque fitted classifier is a record
whose probability call may fail (`Option`), and the structural probing
(`hasattr` on `calibrated_classifiers_` / `named_steps`) becomes a match
on a tagged shape.  Raised-and-uncaught exceptions are an explicit
`Outcome.raised`, `st.stop()` is `Outcome.stopped`.
-/

namespace RiskCalc

/-- Raw feature identifiers (the keys of `input_dict` in the source). -/
abbrev Feature := String

/-- A one-row tabular structure with named columns, as built by
`pd.DataFrame([input_dict])`: ordered (column name, value) pairs. -/
abbrev Row := List (Feature × ℚ)

/-- `NAME_MAPPING` from the source: raw feature identifier to display name. -/
def NAME_MAPPING : List (String × String) :=
  [("egfr", "eGFR (mL/min/1.73m2)"),
   ("E_over_e_prime", "E/e\x27 Ratio"),
   ("d_dimer", "D-Dimer (mg/L)"),
   ("serum_creatinine", "Serum Creatinine (umol/L)"),
   ("nyha_class", "NYHA Class"),
   ("serum_uric_acid", "Uric Acid (umol/L)"),
   ("blood_urea_nitrogen", "BUN (mmol/L)"),
   ("nt_probnp", "NT-proBNP (pg/mL)"),
   ("homocysteine", "Homocysteine (umol/L)"),
   ("hs_crp", "hs-CRP (mg/L)")]

/-- First-match association lookup (dict access / `.get`). -/
def lookupD {β : Type} (d : List (Feature × β)) (f : Feature) : Option β :=
  match d with
  | [] => none
  | p :: rest => if p.1 = f then some p.2 else lookupD rest f

/-- `NAME_MAPPING.get(c, c)` from the source: display name with the raw
identifier as fallback. -/
def displayName (c : String) : String := (lookupD NAME_MAPPING c).getD c

/-- The risk-tier branch of the Calculate handler
(`if risk_percentage < 30 ... elif risk_percentage < 70 ... else ...`). -/
def riskLevel (riskPercentage : ℚ) : String :=
  if riskPercentage < 30 then "Low Risk"
  else if riskPercentage < 70 then "Intermediate Risk"
  else "High Risk"

/-- The color picked by the same branch. -/
def riskColor (riskPercentage : ℚ) : String :=
  if riskPercentage < 30 then "#28a745"
  else if riskPercentage < 70 then "#ffc107"
  else "#dc3545"

/-- Numeric rank of a tier, for stating monotonicity of the step function. -/
def levelRank (level : String) : ℕ :=
  if level = "Low Risk" then 0 else if level = "Intermediate Risk" then 1 else 2

/-- The inner linear estimator: coefficients keyed by feature name plus an
intercept.  (The fitted scikit-learn linear model stores a coefficient per
column; columns are identified by the feature names.) -/
structure LinearModel where
  coef : Feature → ℚ
  intercept : ℚ

/-- The linear score `w·x + b` of the estimator over the given columns. -/
def linScore (m : LinearModel) (x : Feature → ℚ) (cols : List Feature) : ℚ :=
  (cols.map (fun f => m.coef f * x f)).sum + m.intercept

/-- A named step of a two-stage pipeline: either a per-column preprocessing
transform (the scaler) or the final linear estimator. -/
inductive Stage where
  | scalerStage (transform : Feature → ℚ → ℚ)
  | clfStage (m : LinearModel)

/-- An estimator as probed by the source with `hasattr(estimator, 'named_steps')`:
either a pipeline exposing named steps, or a plain linear estimator. -/
inductive Estimator where
  | pipelineEst (named_steps : List (String × Stage))
  | plainEst (m : LinearModel)

/-- One entry of `calibrated_classifiers_`: exposes its base estimator. -/
structure CalibratedClassifier where
  estimator : Estimator

/-- Classifier structure as probed with `hasattr(model, 'calibrated_classifiers_')`. -/
inductive ModelShape where
  | calibrated (calibrated_classifiers : List CalibratedClassifier)
  | direct (e : Estimator)

/-- The opaque fitted classifier: a probability-estimation capability (which
may raise, modelled by `none`) plus the introspectable shape used by the
attribution stage. -/
structure Classifier where
  predict_proba : Row → Option ℚ
  shape : ModelShape

/-- Errors that the attribution block of the source can raise (none of which
it catches): indexing an empty `calibrated_classifiers_`, a missing
`named_steps` key, or a step object of the wrong kind. -/
inductive AttrError where
  | indexError
  | keyError (k : String)
  | typeError
deriving DecidableEq, Repr

/-- The SHAP explanation object for a single row: `base_values`, the ten
signed contributions in column order, and `feature_names`. -/
structure ShapResult where
  base_values : ℚ
  values : List ℚ
  feature_names : List String
deriving DecidableEq, Repr

/-- Per-column mean of the background sample (rows as column-keyed mappings). -/
def colMean (bg : List (Feature → ℚ)) (f : Feature) : ℚ :=
  ((bg.map (fun r => r f)).sum) / (bg.length : ℚ)

/-- `shap.LinearExplainer(clf, background, feature_perturbation="interventional")`
applied to one query row: with `μ` the background column means, the base value
is `w·μ + b` and the contribution of column `f` is `w_f · (x_f − μ_f)` —
each feature marginalized independently against the reference distribution. -/
def linearShap (m : LinearModel) (bg : List (Feature → ℚ)) (x : Feature → ℚ)
    (cols : List Feature) : ShapResult :=
  { base_values := (cols.map (fun f => m.coef f * colMean bg f)).sum + m.intercept
    values := cols.map (fun f => m.coef f * (x f - colMean bg f))
    feature_names := cols }

/-- `estimator = model.calibrated_classifiers_[0].estimator` when the wrapper
is present; indexing an empty list raises. -/
def unwrapEstimator : ModelShape → Except AttrError Estimator
  | ModelShape.calibrated [] => Except.error AttrError.indexError
  | ModelShape.calibrated (c :: _) => Except.ok c.estimator
  | ModelShape.direct e => Except.ok e

/-- `named_steps[k]`: raises `KeyError` when absent. -/
def lookupStep (steps : List (String × Stage)) (k : String) : Except AttrError Stage :=
  match lookupD steps k with
  | some s => Except.ok s
  | none => Except.error (AttrError.keyError k)

/-- The SHAP block of the Calculate handler (unwrap, split the pipeline,
transform background and input, explain), with every raise made explicit.
`x` is the single input row as a column-keyed mapping and `cols` the loaded
feature-name list giving the column order. -/
def attribution (shape : ModelShape) (bg : List (Feature → ℚ)) (x : Feature → ℚ)
    (cols : List Feature) : Except AttrError ShapResult :=
  match unwrapEstimator shape with
  | Except.error e => Except.error e
  | Except.ok (Estimator.pipelineEst steps) =>
    match lookupStep steps "scaler" with
    | Except.error e => Except.error e
    | Except.ok (Stage.clfStage _) => Except.error AttrError.typeError
    | Except.ok (Stage.scalerStage t) =>
      match lookupStep steps "clf" with
      | Except.error e => Except.error e
      | Except.ok (Stage.scalerStage _) => Except.error AttrError.typeError
      | Except.ok (Stage.clfStage m) =>
        Except.ok (linearShap m (bg.map (fun r f => t f (r f))) (fun f => t f (x f)) cols)
  | Except.ok (Estimator.plainEst m) =>
    Except.ok (linearShap m bg x cols)

/-- `shap_values.feature_names = [NAME_MAPPING.get(c, c) for c in model_features]`:
relabel the result for presentation. -/
def setFeatureNames (r : ShapResult) (names : List String) : ShapResult :=
  { r with feature_names := names }

/-- The largest absolute value in the list (`np.abs(values).max()`, with `0`
for the empty list — the values lists here are never empty). -/
def maxAbs (l : List ℚ) : ℚ := (l.map abs).foldr max 0

/-- `np.argmax(np.abs(values))`: index of the first occurrence of the maximal
absolute value. -/
def argmaxAbs (l : List ℚ) : ℕ := (l.map abs).indexOf (maxAbs l)

/-- The interpretive sentence, reduced to its three data: feature display
name, direction and the magnitude `abs(contribution) * 100` that the source
formats with one decimal place. -/
structure Interp where
  name : String
  direction : String
  magnitudePct : ℚ
deriving DecidableEq, Repr

/-- Lines 168–175 of the source: pick the index of maximal absolute
contribution (`top_feature_idx`), read the (already relabelled) name at that
index, direction by the sign of the contribution there, magnitude as
`abs(contribution) * 100`. -/
def interpretOf (r : ShapResult) : Interp :=
  { name := r.feature_names.getD (argmaxAbs r.values) ""
    direction := if 0 < r.values.getD (argmaxAbs r.values) 0 then "increased" else "decreased"
    magnitudePct := |r.values.getD (argmaxAbs r.values) 0| * 100 }

/-- Elements the script renders, in order of emission. -/
inductive UIElement where
  | errorMsg (text : String)
  | probCard (riskPercentage : ℚ) (level : String)
  | waterfall (r : ShapResult)
  | interp (it : Interp)
  | infoPrompt
deriving DecidableEq, Repr

/-- How one script run ends: ran to the end, `st.stop()`, or an exception
that nothing in the script catches. -/
inductive Outcome where
  | completed
  | stopped
  | raised (e : AttrError)
deriving DecidableEq, Repr

/-- Result of one run: what was rendered before the run ended, and how it
ended.  (Under the reactive UI framework, elements emitted before an
uncaught exception stay on screen.) -/
structure RunResult where
  rendered : List UIElement
  outcome : Outcome
deriving DecidableEq, Repr

/-- `input_df = pd.DataFrame([input_dict]); input_df = input_df[model_features]`:
the one-row frame reindexed to the loaded feature-name order.  `d` is the
collector dict as an insertion-ordered association list; a missing key is
totalized to `0` (the collector always supplies all ten keys). -/
def buildInputDf (d : Row) (model_features : List Feature) : Row :=
  model_features.map (fun f => (f, (lookupD d f).getD 0))

/-- The column-keyed view of a one-row frame, as the scaler and explainer
consume it. -/
def rowFun (d : Row) : Feature → ℚ := fun f => (lookupD d f).getD 0

/-- The loaded resources: `(None, None, None)` or the full triple.  The
source returns all three or none. -/
abbrev Loaded := Option (Classifier × List (Feature → ℚ) × List Feature)

/-- The body of `if st.button("Calculate Risk")` (lines 94–175): guard on
missing resources, reorder the input, predict, render the probability card,
run the uncaught attribution block, relabel, plot, and emit the
interpretation sentence. -/
def calculate (loaded : Loaded) (d : Row) : RunResult :=
  match loaded with
  | none => { rendered := [], outcome := Outcome.stopped }
  | some (model, X_train_bg, model_features) =>
    let input_df := buildInputDf d model_features
    match model.predict_proba input_df with
    | none =>
      { rendered := [UIElement.errorMsg "Model prediction failed. Please check input data."]
        outcome := Outcome.stopped }
    | some prob =>
      let risk_percentage := prob * 100
      let card := UIElement.probCard risk_percentage (riskLevel risk_percentage)
      match attribution model.shape X_train_bg (rowFun input_df) model_features with
      | Except.error e => { rendered := [card], outcome := Outcome.raised e }
      | Except.ok shap_values =>
        let relabelled := setFeatureNames shap_values (model_features.map displayName)
        let it := interpretOf relabelled
        { rendered := [card, UIElement.waterfall relabelled, UIElement.interp it]
          outcome := Outcome.completed }

/-- State of one artifact file on disk: absent, present but undeserializable,
or present with its payload. -/
inductive FileState (α : Type) where
  | missing
  | corrupt
  | good (payload : α)

/-- Exceptions `joblib.load` raises here. -/
inductive LoadExn where
  | fileNotFound
  | unpicklingError
deriving DecidableEq, Repr

/-- `joblib.load` on one file. -/
def joblibLoad {α : Type} : FileState α → Except LoadExn α
  | FileState.missing => Except.error LoadExn.fileNotFound
  | FileState.corrupt => Except.error LoadExn.unpicklingError
  | FileState.good a => Except.ok a

/-- The try-block of `load_resources`: the three loads in source order. -/
def loadAll (fm : FileState Classifier) (fb : FileState (List (Feature → ℚ)))
    (ff : FileState (List Feature)) : Except LoadExn (Classifier × List (Feature → ℚ) × List Feature) :=
  match joblibLoad fm with
  | Except.error e => Except.error e
  | Except.ok model =>
    match joblibLoad fb with
    | Except.error e => Except.error e
    | Except.ok background_data =>
      match joblibLoad ff with
      | Except.error e => Except.error e
      | Except.ok feature_names => Except.ok (model, background_data, feature_names)

/-- `load_resources`: catches `FileNotFoundError` only — that case shows the
error banner and returns the `(None, None, None)` sentinel; any other
exception escapes this boundary. -/
def load_resources (fm : FileState Classifier) (fb : FileState (List (Feature → ℚ)))
    (ff : FileState (List Feature)) : Except LoadExn (Loaded × List UIElement) :=
  match loadAll fm fb ff with
  | Except.ok t => Except.ok (some t, [])
  | Except.error LoadExn.fileNotFound =>
    Except.ok (none, [UIElement.errorMsg "Error: Model files not found."])
  | Except.error e => Except.error e

/-- One full script run: load resources, then either the Calculate handler
(button clicked) or the idle prompt.  `d` is the collector dict. -/
def scriptRun (fm : FileState Classifier) (fb : FileState (List (Feature → ℚ)))
    (ff : FileState (List Feature)) (d : Row) (clicked : Bool) :
    Except LoadExn RunResult :=
  match load_resources fm fb ff with
  | Except.error e => Except.error e
  | Except.ok (loaded, loadEls) =>
    if clicked then
      let r := calculate loaded d
      Except.ok { rendered := loadEls ++ r.rendered, outcome := r.outcome }
    else
      Except.ok { rendered := loadEls ++ [UIElement.infoPrompt], outcome := Outcome.completed }

/-- The collector's ranges (`st.sidebar.number_input` bounds and the NYHA
select box): a feature vector all ten of whose values lie in their declared
ranges. -/
def validInput (x : Feature → ℚ) : Prop :=
  5 ≤ x "egfr" ∧ x "egfr" ≤ 150 ∧
  20 ≤ x "serum_creatinine" ∧ x "serum_creatinine" ≤ 1000 ∧
  1 ≤ x "blood_urea_nitrogen" ∧ x "blood_urea_nitrogen" ≤ 50 ∧
  1 ≤ x "E_over_e_prime" ∧ x "E_over_e_prime" ≤ 50 ∧
  10 ≤ x "nt_probnp" ∧ x "nt_probnp" ≤ 35000 ∧
  (x "nyha_class" = 1 ∨ x "nyha_class" = 2 ∨ x "nyha_class" = 3 ∨ x "nyha_class" = 4) ∧
  0 ≤ x "d_dimer" ∧ x "d_dimer" ≤ 20 ∧
  50 ≤ x "serum_uric_acid" ∧ x "serum_uric_acid" ≤ 1000 ∧
  1 ≤ x "homocysteine" ∧ x "homocysteine" ≤ 100 ∧
  0 ≤ x "hs_crp" ∧ x "hs_crp" ≤ 200

instance (x : Feature → ℚ) : Decidable (validInput x) := by
  unfold validInput; infer_instance

/-- The score the inner linear estimator assigns to the (transformed) input:
the reference value the attribution must reproduce.  Follows the same
unwrap/split/transform path as the attribution block. -/
def pipelineScore (shape : ModelShape) (x : Feature → ℚ) (cols : List Feature) :
    Except AttrError ℚ :=
  match unwrapEstimator shape with
  | Except.error e => Except.error e
  | Except.ok (Estimator.pipelineEst steps) =>
    match lookupStep steps "scaler" with
    | Except.error e => Except.error e
    | Except.ok (Stage.clfStage _) => Except.error AttrError.typeError
    | Except.ok (Stage.scalerStage t) =>
      match lookupStep steps "clf" with
      | Except.error e => Except.error e
      | Except.ok (Stage.scalerStage _) => Except.error AttrError.typeError
      | Except.ok (Stage.clfStage m) => Except.ok (linScore m (fun f => t f (x f)) cols)
  | Except.ok (Estimator.plainEst m) => Except.ok (linScore m x cols)

/-! The definitions above key columns by feature name, which encodes the
column alignment the trained artifacts fix; that view is adequate for
alignment-independent properties such as additivity.  Order-sensitivity of
the pipeline is a different question: the fitted scaler, the estimator
coefficients and the stored background sample are positional arrays in
artifact column order, and the source reorders only `input_df` (line 100) —
`X_train_bg` is never reordered.  The definitions below give that
positional view of the same computation. -/

/-- The positional values of the reindexed one-row frame
(`input_df = input_df[model_features]`): position `i` holds the collector
value of the `i`-th listed feature.  This row is what the positional
artifacts consume. -/
def rowVals (d : Row) (model_features : List Feature) : List ℚ :=
  model_features.map (fun f => (lookupD d f).getD 0)

/-- The fitted linear estimator as stored in the artifact: one coefficient
per column position, fixed at training time and never reordered. -/
structure LinearModelP where
  coef : List ℚ
  intercept : ℚ

/-- The positional linear score `w·x + b` (the quantity the fitted estimator
computes on a row; the predicted probability is a strictly monotone link of
it, so an unequal score means an unequal probability). -/
def linScoreP (m : LinearModelP) (x : List ℚ) : ℚ :=
  (List.zipWith (fun c v => c * v) m.coef x).sum + m.intercept

/-- Positional interventional SHAP contributions: `coef i * (x i - mu i)`,
where `mu` are the column means of the stored background sample
(`X_train_bg`, which the source never reorders, so `mu` stays in artifact
column order whatever `model_features` says). -/
def linearShapValsP (coef mu x : List ℚ) : List ℚ :=
  List.zipWith (fun c v => c * v) coef (List.zipWith (fun a b => a - b) x mu)

/-- Line 155 of the source: the UI pairs the computed contributions with the
names in `model_features` order. -/
def shapPairsP (model_features : List Feature) (vals : List ℚ) : List (Feature × ℚ) :=
  model_features.zip vals

/-- The ten feature keys in collector insertion order. -/
def featureKeys : List Feature :=
  ["egfr", "serum_creatinine", "blood_urea_nitrogen", "E_over_e_prime",
   "nt_probnp", "nyha_class", "d_dimer", "serum_uric_acid", "homocysteine", "hs_crp"]

/-- The collector defaults, as the insertion-ordered dict the sidebar builds. -/
def defaultInput : Row :=
  [("egfr", 30), ("serum_creatinine", 150), ("blood_urea_nitrogen", 10),
   ("E_over_e_prime", 15), ("nt_probnp", 2000), ("nyha_class", 3),
   ("d_dimer", 1/2), ("serum_uric_acid", 400), ("homocysteine", 15), ("hs_crp", 5)]

/-- The feature-identifier list with its first two entries swapped: a
reordering of `featureKeys` that leaves every name-value association
intact. -/
def featureKeysSwapped : List Feature :=
  ["serum_creatinine", "egfr", "blood_urea_nitrogen", "E_over_e_prime",
   "nt_probnp", "nyha_class", "d_dimer", "serum_uric_acid", "homocysteine", "hs_crp"]

/-- A stored estimator whose first artifact column (eGFR in training order)
carries the only nonzero coefficient. -/
def coefEgfr : List ℚ := [1, 0, 0, 0, 0, 0, 0, 0, 0, 0]

/-- Background column means of an all-zero stored background sample. -/
def muZero : List ℚ := [0, 0, 0, 0, 0, 0, 0, 0, 0, 0]

/-! ### Helper lemmas -/

theorem maxAbs_cons (a : ℚ) (t : List ℚ) : maxAbs (a :: t) = max |a| (maxAbs t) := rfl

theorem le_maxAbs {l : List ℚ} {v : ℚ} (hv : v ∈ l) : |v| ≤ maxAbs l := by
  induction l with
  | nil => cases hv
  | cons a t ih =>
    rw [maxAbs_cons]
    rcases List.mem_cons.1 hv with h | h
    · exact h ▸ le_max_left _ _
    · exact le_trans (ih h) (le_max_right _ _)

theorem maxAbs_mem {l : List ℚ} (h : l ≠ []) : maxAbs l ∈ l.map abs := by
  induction l with
  | nil => exact absurd rfl h
  | cons a t ih =>
    rw [maxAbs_cons]
    rcases eq_or_ne t [] with ht | ht
    · subst ht
      simp [maxAbs, abs_nonneg a, max_eq_left (abs_nonneg a)]
    · rcases max_choice |a| (maxAbs t) with hm | hm
      · rw [hm]; exact List.mem_cons_self _ _
      · rw [hm]
        exact List.mem_cons_of_mem _ (ih ht)

theorem argmaxAbs_lt {l : List ℚ} (h : l ≠ []) : argmaxAbs l < l.length := by
  have hlt := List.indexOf_lt_length.2 (maxAbs_mem h)
  simpa [argmaxAbs] using hlt

theorem getD_argmaxAbs {l : List ℚ} (h : l ≠ []) : |l.getD (argmaxAbs l) 0| = maxAbs l := by
  have hm := maxAbs_mem h
  have hlt : List.indexOf (maxAbs l) (l.map abs) < (l.map abs).length :=
    List.indexOf_lt_length.2 hm
  have hlt' : argmaxAbs l < l.length := argmaxAbs_lt h
  have h1 := List.getElem_indexOf hlt
  rw [List.getElem_map] at h1
  rw [List.getD_eq_getElem _ _ hlt']
  exact h1

theorem sum_map_sub (l : List Feature) (g h : Feature → ℚ) :
    (l.map (fun f => g f - h f)).sum = (l.map g).sum - (l.map h).sum := by
  induction l with
  | nil => simp
  | cons a t ih => simp only [List.map_cons, List.sum_cons, ih]; ring

theorem linearShap_additivity (m : LinearModel) (bg : List (Feature → ℚ))
    (x : Feature → ℚ) (cols : List Feature) :
    (linearShap m bg x cols).base_values + (linearShap m bg x cols).values.sum
      = linScore m x cols := by
  show ((cols.map fun f => m.coef f * colMean bg f).sum + m.intercept)
      + (cols.map fun f => m.coef f * (x f - colMean bg f)).sum
      = (cols.map fun f => m.coef f * x f).sum + m.intercept
  have h2 : (cols.map fun f => m.coef f * (x f - colMean bg f))
      = cols.map fun f => m.coef f * x f - m.coef f * colMean bg f :=
    List.map_congr_left fun f _ => mul_sub (m.coef f) (x f) (colMean bg f)
  rw [h2, sum_map_sub cols (fun f => m.coef f * x f) (fun f => m.coef f * colMean bg f)]
  ring

theorem riskLevel_mono {a b : ℚ} (hab : a ≤ b) :
    levelRank (riskLevel a) ≤ levelRank (riskLevel b) := by
  unfold riskLevel
  split_ifs <;> first | decide | linarith

/-! ### Claim theorems -/

/-- C1: the Presentation Stage maps the probability `p` to the percentage
`100 * p` and to exactly one of three tiers by a pure, monotonic step
function of the percentage: below 30 the label is low risk, in `[30, 70)`
intermediate, and at or above 70 high; in particular label(29.9) is low,
label(30.0) and label(69.9) intermediate, label(70.0) high. -/
theorem C1_risk_tier (p : ℚ) :
    (100 * p < 30 → riskLevel (100 * p) = "Low Risk") ∧
    (30 ≤ 100 * p → 100 * p < 70 → riskLevel (100 * p) = "Intermediate Risk") ∧
    (70 ≤ 100 * p → riskLevel (100 * p) = "High Risk") ∧
    (∀ q : ℚ, p ≤ q → levelRank (riskLevel (100 * p)) ≤ levelRank (riskLevel (100 * q))) ∧
    riskLevel (299 / 10) = "Low Risk" ∧
    riskLevel 30 = "Intermediate Risk" ∧
    riskLevel (699 / 10) = "Intermediate Risk" ∧
    riskLevel 70 = "High Risk" := by
  refine ⟨?_, ?_, ?_, ?_, by norm_num [riskLevel], by norm_num [riskLevel],
    by norm_num [riskLevel], by norm_num [riskLevel]⟩
  · intro h; unfold riskLevel; rw [if_pos h]
  · intro h1 h2; unfold riskLevel; rw [if_neg (not_lt.2 h1), if_pos h2]
  · intro h; unfold riskLevel
    rw [if_neg (not_lt.2 (by linarith)), if_neg (not_lt.2 h)]
  · intro q hq
    exact riskLevel_mono (by linarith)

/-- C1 witness: the three branch hypotheses and the monotonicity hypothesis
discharged at concrete probabilities 0.1, 0.5 and 0.8. -/
theorem C1_risk_tier_witness :
    riskLevel (100 * (1 / 10)) = "Low Risk" ∧
    riskLevel (100 * (1 / 2)) = "Intermediate Risk" ∧
    riskLevel (100 * (4 / 5)) = "High Risk" ∧
    levelRank (riskLevel (100 * (1 / 10))) ≤ levelRank (riskLevel (100 * (1 / 2))) :=
  ⟨(C1_risk_tier (1 / 10)).1 (by norm_num),
   (C1_risk_tier (1 / 2)).2.1 (by norm_num) (by norm_num),
   (C1_risk_tier (4 / 5)).2.2.1 (by norm_num),
   (C1_risk_tier (1 / 10)).2.2.2.1 (1 / 2) (by norm_num)⟩

/-- C2: the interpretation sentence is built from the feature at the first
index of maximal absolute contribution (`np.argmax(np.abs(values))`): its
absolute contribution dominates every contribution in the list, its name is
read off the (relabelled) feature-name list at that index, the direction is
"increased" exactly when the contribution is strictly positive and
"decreased" otherwise, and the reported magnitude is the absolute
contribution times 100 (which the source then formats with one decimal
place). -/
theorem C2_interpretation (r : ShapResult) (hne : r.values ≠ []) :
    argmaxAbs r.values < r.values.length ∧
    (∀ v ∈ r.values, |v| ≤ |r.values.getD (argmaxAbs r.values) 0|) ∧
    (interpretOf r).name = r.feature_names.getD (argmaxAbs r.values) "" ∧
    ((interpretOf r).direction = "increased" ↔ 0 < r.values.getD (argmaxAbs r.values) 0) ∧
    ((interpretOf r).direction = "decreased" ↔ ¬ 0 < r.values.getD (argmaxAbs r.values) 0) ∧
    (interpretOf r).magnitudePct = |r.values.getD (argmaxAbs r.values) 0| * 100 := by
  refine ⟨argmaxAbs_lt hne, ?_, rfl, ?_, ?_, rfl⟩
  · intro v hv
    rw [getD_argmaxAbs hne]
    exact le_maxAbs hv
  · show (if 0 < r.values.getD (argmaxAbs r.values) 0 then "increased" else "decreased")
      = "increased" ↔ _
    split_ifs with h
    · exact ⟨fun _ => h, fun _ => rfl⟩
    · exact ⟨fun hc => absurd hc (by decide), fun hc => absurd hc h⟩
  · show (if 0 < r.values.getD (argmaxAbs r.values) 0 then "increased" else "decreased")
      = "decreased" ↔ _
    split_ifs with h
    · exact ⟨fun hc => absurd hc (by decide), fun hc => absurd h hc⟩
    · exact ⟨fun _ => h, fun _ => rfl⟩

/-- C2 witness: the interpretation of a concrete three-feature explanation,
obtained from the theorem at `values = [1, -3, 2]`: the second feature
dominates, the direction is "decreased" and the magnitude is 300. -/
theorem C2_interpretation_witness :
    (interpretOf ⟨1, [1, -3, 2], ["a", "b", "c"]⟩).name = "b" ∧
    (interpretOf ⟨1, [1, -3, 2], ["a", "b", "c"]⟩).direction = "decreased" ∧
    (interpretOf ⟨1, [1, -3, 2], ["a", "b", "c"]⟩).magnitudePct = 300 ∧
    |(-3 : ℚ)| ≤ |([1, -3, 2] : List ℚ).getD (argmaxAbs [1, -3, 2]) 0| := by
  have h := C2_interpretation ⟨1, [1, -3, 2], ["a", "b", "c"]⟩ (by decide)
  have hval : ([1, -3, 2] : List ℚ).getD (argmaxAbs [1, -3, 2]) 0 = -3 := by decide
  refine ⟨?_, ?_, ?_, ?_⟩
  · rw [h.2.2.1]; decide
  · exact h.2.2.2.2.1.mpr (by decide)
  · rw [h.2.2.2.2.2, hval]; norm_num
  · exact h.2.1 (-3) (by decide)

/-- C5: the attribution stage unwraps a calibration wrapper to the first
calibrated classifier's base estimator; on a two-stage pipeline it splits
out the scaler and the final linear estimator and applies the transform to
both the background sample and the input row before explaining (with the
interventional-perturbation explainer `linearShap`); without a pipeline it
explains the untransformed input against the untransformed background; and
relabeling to display names changes neither the contribution values nor the
base value. -/
theorem C5_unwrap_transform (c : CalibratedClassifier) (rest : List CalibratedClassifier)
    (steps : List (String × Stage)) (t : Feature → ℚ → ℚ) (m : LinearModel)
    (bg : List (Feature → ℚ)) (x : Feature → ℚ) (cols : List Feature)
    (r : ShapResult) (names : List String) :
    (attribution (ModelShape.calibrated (c :: rest)) bg x cols
       = attribution (ModelShape.direct c.estimator) bg x cols) ∧
    (lookupD steps "scaler" = some (Stage.scalerStage t) →
      lookupD steps "clf" = some (Stage.clfStage m) →
      attribution (ModelShape.direct (Estimator.pipelineEst steps)) bg x cols
        = Except.ok (linearShap m (bg.map (fun row f => t f (row f)))
            (fun f => t f (x f)) cols)) ∧
    (attribution (ModelShape.direct (Estimator.plainEst m)) bg x cols
       = Except.ok (linearShap m bg x cols)) ∧
    (setFeatureNames r names).values = r.values ∧
    (setFeatureNames r names).base_values = r.base_values := by
  refine ⟨rfl, ?_, rfl, rfl, rfl⟩
  intro h1 h2
  simp [attribution, unwrapEstimator, lookupStep, h1, h2]

/-- C5 witness: the pipeline-split hypotheses discharged on a concrete
two-stage pipeline whose scaler adds one to every column. -/
theorem C5_unwrap_transform_witness :
    attribution (ModelShape.direct (Estimator.pipelineEst
        [("scaler", Stage.scalerStage fun _ v => v + 1),
         ("clf", Stage.clfStage ⟨fun _ => 1, 0⟩)]))
      ([] : List (Feature → ℚ)) (fun _ => 0) ["a"]
      = Except.ok (linearShap ⟨fun _ => 1, 0⟩ ([] : List (Feature → ℚ))
          (fun _ => (0 : ℚ) + 1) ["a"]) :=
  (C5_unwrap_transform ⟨Estimator.plainEst ⟨fun _ => 1, 0⟩⟩ []
    [("scaler", Stage.scalerStage fun _ v => v + 1), ("clf", Stage.clfStage ⟨fun _ => 1, 0⟩)]
    (fun _ v => v + 1) ⟨fun _ => 1, 0⟩ ([] : List (Feature → ℚ)) (fun _ => 0) ["a"]
    ⟨0, [], []⟩ []).2.1 rfl rfl

/-- C6: whenever the attribution block succeeds on a valid feature vector,
the base value plus the sum of the per-feature contributions equals exactly
(tolerance 0 in exact rational arithmetic) the inner linear estimator's
score on the (transformed) input. -/
theorem C6_attribution_additivity (shape : ModelShape) (bg : List (Feature → ℚ))
    (x : Feature → ℚ) (cols : List Feature) (r : ShapResult)
    (hx : validInput x)
    (h : attribution shape bg x cols = Except.ok r) :
    pipelineScore shape x cols = Except.ok (r.base_values + r.values.sum) := by
  unfold attribution at h
  unfold pipelineScore
  split at h
  · exact Except.noConfusion h
  · -- pipeline estimator: split the two inner step lookups
    split at h
    · exact Except.noConfusion h
    · exact Except.noConfusion h
    · split at h
      · exact Except.noConfusion h
      · exact Except.noConfusion h
      · injection h with h
        subst h
        exact congrArg Except.ok (linearShap_additivity _ _ _ _).symm
  · injection h with h
    subst h
    exact congrArg Except.ok (linearShap_additivity _ _ _ _).symm

/-- C6 witness: the additivity identity instantiated at the collector's
default input (a valid feature vector) and a plain unit-coefficient linear
estimator over an empty background. -/
theorem C6_attribution_additivity_witness :
    pipelineScore (ModelShape.direct (Estimator.plainEst ⟨fun _ => 1, 0⟩))
        (rowFun defaultInput) featureKeys
      = Except.ok ((linearShap ⟨fun _ => 1, 0⟩ ([] : List (Feature → ℚ))
            (rowFun defaultInput) featureKeys).base_values
          + (linearShap ⟨fun _ => 1, 0⟩ ([] : List (Feature → ℚ))
            (rowFun defaultInput) featureKeys).values.sum) :=
  C6_attribution_additivity _ ([] : List (Feature → ℚ)) (rowFun defaultInput) featureKeys _
    (by simp [validInput, rowFun, defaultInput, lookupD]; norm_num) rfl

/-- C3 counterexample: the claim says attribution-stage errors are caught at
the attribution boundary and the panel shows an error state, but the SHAP
block has no exception handler.  On a classifier whose pipeline lacks the
expected "scaler" step, the Calculate handler ends with an uncaught
`KeyError` and the rendered output contains no error element at all — only
the probability card emitted before the attribution block. -/
theorem C3_counterexample :
    (calculate (some (⟨fun _ => some 1, ModelShape.direct (Estimator.pipelineEst [])⟩,
        ([] : List (Feature → ℚ)), featureKeys)) defaultInput).outcome
      = Outcome.raised (AttrError.keyError "scaler") ∧
    (calculate (some (⟨fun _ => some 1, ModelShape.direct (Estimator.pipelineEst [])⟩,
        ([] : List (Feature → ℚ)), featureKeys)) defaultInput).rendered
      = [UIElement.probCard 100 "High Risk"] := by
  constructor
  · rfl
  · show [UIElement.probCard ((1 : ℚ) * 100) (riskLevel ((1 : ℚ) * 100))] = _
    norm_num [riskLevel]

/-- C3 (amended): attribution-stage failures are NOT caught anywhere in the
script: when the attribution block raises, the exception propagates uncaught
out of the Calculate handler; the probability card rendered before the block
remains (so the prediction may still be shown), and neither an attribution
panel, an interpretation, nor any app-rendered error state is produced. -/
theorem C3_attribution_uncaught (model : Classifier) (bg : List (Feature → ℚ))
    (feats : List Feature) (d : Row) (p : ℚ) (e : AttrError)
    (hp : model.predict_proba (buildInputDf d feats) = some p)
    (he : attribution model.shape bg (rowFun (buildInputDf d feats)) feats = Except.error e) :
    calculate (some (model, bg, feats)) d
      = { rendered := [UIElement.probCard (p * 100) (riskLevel (p * 100))]
          outcome := Outcome.raised e } := by
  simp only [calculate, hp, he]

/-- C3 witness: the amended theorem applied to a calibration wrapper with an
empty `calibrated_classifiers_` list, whose unwrap raises an IndexError. -/
theorem C3_attribution_uncaught_witness :
    calculate (some (⟨fun _ => some 1, ModelShape.calibrated []⟩,
        ([] : List (Feature → ℚ)), featureKeys)) defaultInput
      = { rendered := [UIElement.probCard ((1 : ℚ) * 100) (riskLevel ((1 : ℚ) * 100))]
          outcome := Outcome.raised AttrError.indexError } :=
  C3_attribution_uncaught ⟨fun _ => some 1, ModelShape.calibrated []⟩
    ([] : List (Feature → ℚ)) featureKeys defaultInput 1 AttrError.indexError rfl rfl

/-- C7: when the probability-estimation call raises, the handler shows the
generic "prediction failed" message and stops: nothing else is rendered for
that evaluation — no probability card, no attribution, no interpretation. -/
theorem C7_prediction_failure (model : Classifier) (bg : List (Feature → ℚ))
    (feats : List Feature) (d : Row)
    (hp : model.predict_proba (buildInputDf d feats) = none) :
    calculate (some (model, bg, feats)) d
      = { rendered := [UIElement.errorMsg "Model prediction failed. Please check input data."]
          outcome := Outcome.stopped } := by
  simp only [calculate, hp]

/-- C7 witness: a classifier whose probability call always raises. -/
theorem C7_prediction_failure_witness :
    calculate (some (⟨fun _ => none, ModelShape.direct (Estimator.plainEst ⟨fun _ => 0, 0⟩)⟩,
        ([] : List (Feature → ℚ)), featureKeys)) defaultInput
      = { rendered := [UIElement.errorMsg "Model prediction failed. Please check input data."]
          outcome := Outcome.stopped } :=
  C7_prediction_failure ⟨fun _ => none, ModelShape.direct (Estimator.plainEst ⟨fun _ => 0, 0⟩)⟩
    ([] : List (Feature → ℚ)) featureKeys defaultInput rfl

/-- C4: with every artifact file either present-and-well-formed or missing,
if any is missing the loader returns the sentinel triple with a user-visible
error banner and without raising, and a subsequent Calculate click renders
no probability, no attribution and no interpretation: the run stops at the
model-is-None guard with only the ResourcesUnavailable banner shown. -/
theorem C4_missing_artifact (fm : FileState Classifier) (fb : FileState (List (Feature → ℚ)))
    (ff : FileState (List Feature)) (d : Row)
    (h1 : fm ≠ FileState.corrupt) (h2 : fb ≠ FileState.corrupt) (h3 : ff ≠ FileState.corrupt)
    (hmiss : fm = FileState.missing ∨ fb = FileState.missing ∨ ff = FileState.missing) :
    scriptRun fm fb ff d true
      = Except.ok { rendered := [UIElement.errorMsg "Error: Model files not found."]
                    outcome := Outcome.stopped } := by
  rcases fm with _ | _ | m
  · rfl
  · exact absurd rfl h1
  · rcases fb with _ | _ | b
    · rfl
    · exact absurd rfl h2
    · rcases ff with _ | _ | fl
      · rfl
      · exact absurd rfl h3
      · rcases hmiss with h | h | h <;> exact FileState.noConfusion h

/-- C4 witness: model and background files present, feature-name file
missing. -/
theorem C4_missing_artifact_witness :
    scriptRun (FileState.good ⟨fun _ => some 0, ModelShape.direct (Estimator.plainEst ⟨fun _ => 0, 0⟩)⟩)
        (FileState.good ([] : List (Feature → ℚ))) FileState.missing defaultInput true
      = Except.ok { rendered := [UIElement.errorMsg "Error: Model files not found."]
                    outcome := Outcome.stopped } :=
  C4_missing_artifact _ _ _ defaultInput (fun h => FileState.noConfusion h)
    (fun h => FileState.noConfusion h) (fun h => FileState.noConfusion h)
    (Or.inr (Or.inr rfl))

/-- C10 (implicit): the loader catches only the missing-file error.  If the
first file the loader reaches that fails is present but undeserializable,
the exception escapes `load_resources` uncaught: no sentinel triple is
returned, no loader banner is shown, and the whole script run aborts with
the deserialization error. -/
theorem C10_corrupt_artifact_escapes (fm : FileState Classifier)
    (fb : FileState (List (Feature → ℚ))) (ff : FileState (List Feature))
    (d : Row) (clicked : Bool) :
    (fm = FileState.corrupt →
      load_resources fm fb ff = Except.error LoadExn.unpicklingError ∧
      scriptRun fm fb ff d clicked = Except.error LoadExn.unpicklingError) ∧
    (∀ model, fm = FileState.good model → fb = FileState.corrupt →
      load_resources fm fb ff = Except.error LoadExn.unpicklingError ∧
      scriptRun fm fb ff d clicked = Except.error LoadExn.unpicklingError) ∧
    (∀ model bgs, fm = FileState.good model → fb = FileState.good bgs →
      ff = FileState.corrupt →
      load_resources fm fb ff = Except.error LoadExn.unpicklingError ∧
      scriptRun fm fb ff d clicked = Except.error LoadExn.unpicklingError) := by
  refine ⟨?_, ?_, ?_⟩
  · rintro rfl
    exact ⟨rfl, rfl⟩
  · rintro model rfl rfl
    exact ⟨rfl, rfl⟩
  · rintro model bgs rfl rfl rfl
    exact ⟨rfl, rfl⟩

/-- C10 witness: the three corrupt-file positions, each escaping the loader
as an unpickling error. -/
theorem C10_corrupt_artifact_escapes_witness :
    scriptRun (FileState.corrupt : FileState Classifier)
        (FileState.good ([] : List (Feature → ℚ))) (FileState.good featureKeys)
        defaultInput true = Except.error LoadExn.unpicklingError ∧
    scriptRun (FileState.good ⟨fun _ => some 0, ModelShape.direct (Estimator.plainEst ⟨fun _ => 0, 0⟩)⟩)
        FileState.corrupt (FileState.good featureKeys)
        defaultInput true = Except.error LoadExn.unpicklingError ∧
    scriptRun (FileState.good ⟨fun _ => some 0, ModelShape.direct (Estimator.plainEst ⟨fun _ => 0, 0⟩)⟩)
        (FileState.good ([] : List (Feature → ℚ))) FileState.corrupt
        defaultInput true = Except.error LoadExn.unpicklingError :=
  ⟨((C10_corrupt_artifact_escapes FileState.corrupt
      (FileState.good ([] : List (Feature → ℚ))) (FileState.good featureKeys)
      defaultInput true).1 rfl).2,
   ((C10_corrupt_artifact_escapes _ FileState.corrupt (FileState.good featureKeys)
      defaultInput true).2.1 _ rfl rfl).2,
   ((C10_corrupt_artifact_escapes _ (FileState.good ([] : List (Feature → ℚ)))
      FileState.corrupt defaultInput true).2.2 _ _ rfl rfl rfl).2⟩

/-- C9: the Calculate pipeline is a pure function of the loaded triple and
the collected inputs — two runs with identical classifier, background
sample, feature-name list and feature values produce identical rendered
output (probability card, attribution and interpretation included). -/
theorem C9_determinism (l1 l2 : Loaded) (d1 d2 : Row)
    (hl : l1 = l2) (hd : d1 = d2) :
    calculate l1 d1 = calculate l2 d2 := by
  rw [hl, hd]

/-- C9 witness: two runs on the same concrete loaded triple and default
inputs. -/
theorem C9_determinism_witness :
    calculate (some (⟨fun _ => some 0, ModelShape.direct (Estimator.plainEst ⟨fun _ => 0, 0⟩)⟩,
        ([] : List (Feature → ℚ)), featureKeys)) defaultInput
      = calculate (some (⟨fun _ => some 0, ModelShape.direct (Estimator.plainEst ⟨fun _ => 0, 0⟩)⟩,
        ([] : List (Feature → ℚ)), featureKeys)) defaultInput :=
  C9_determinism _ _ _ _ rfl rfl

theorem rowVals_getD (d : Row) : ∀ (feats : List Feature) (i : ℕ), i < feats.length →
    (rowVals d feats).getD i 0 = (lookupD d (feats.getD i "")).getD 0
  | [], _, hi => absurd hi (by simp)
  | _ :: _, 0, _ => rfl
  | _ :: rest, i + 1, hi => rowVals_getD d rest i (Nat.lt_of_succ_lt_succ hi)

/-- C8 counterexample: reordering the feature-identifier list DOES change
the probability and attribution results, because only `input_df` is
reordered while the fitted estimator coefficients, the scaler and the
background sample stay in artifact column order.  At the collector defaults
(a valid input) with the first two list entries swapped, an estimator whose
only nonzero coefficient sits in the first artifact column scores 150
instead of 30 (it now reads serum creatinine where it expects eGFR), and
the contribution attributed to eGFR changes from 30 to 0 — contribution `i`
becomes `coef i * (x (σ i) - mu i)`, a misalignment, not a permutation of
the same pairs. -/
theorem C8_counterexample :
    validInput (rowFun defaultInput) ∧
    featureKeysSwapped.Perm featureKeys ∧
    linScoreP ⟨coefEgfr, 0⟩ (rowVals defaultInput featureKeysSwapped)
      ≠ linScoreP ⟨coefEgfr, 0⟩ (rowVals defaultInput featureKeys) ∧
    lookupD (shapPairsP featureKeysSwapped
        (linearShapValsP coefEgfr muZero (rowVals defaultInput featureKeysSwapped))) "egfr"
      = some 0 ∧
    lookupD (shapPairsP featureKeys
        (linearShapValsP coefEgfr muZero (rowVals defaultInput featureKeys))) "egfr"
      = some 30 ∧
    ¬ (shapPairsP featureKeysSwapped
        (linearShapValsP coefEgfr muZero (rowVals defaultInput featureKeysSwapped))).Perm
      (shapPairsP featureKeys
        (linearShapValsP coefEgfr muZero (rowVals defaultInput featureKeys))) := by
  have hrow : rowVals defaultInput featureKeys
      = [30, 150, 10, 15, 2000, 3, 1/2, 400, 15, 5] := by
    simp [rowVals, featureKeys, defaultInput, lookupD]
  have hrow2 : rowVals defaultInput featureKeysSwapped
      = [150, 30, 10, 15, 2000, 3, 1/2, 400, 15, 5] := by
    simp [rowVals, featureKeysSwapped, defaultInput, lookupD]
  have hvals : linearShapValsP coefEgfr muZero (rowVals defaultInput featureKeys)
      = [30, 0, 0, 0, 0, 0, 0, 0, 0, 0] := by
    rw [hrow]
    norm_num [linearShapValsP, coefEgfr, muZero]
  have hvals2 : linearShapValsP coefEgfr muZero (rowVals defaultInput featureKeysSwapped)
      = [150, 0, 0, 0, 0, 0, 0, 0, 0, 0] := by
    rw [hrow2]
    norm_num [linearShapValsP, coefEgfr, muZero]
  refine ⟨by simp [validInput, rowFun, defaultInput, lookupD]; norm_num,
    List.Perm.swap "egfr" "serum_creatinine"
      ["blood_urea_nitrogen", "E_over_e_prime", "nt_probnp", "nyha_class",
       "d_dimer", "serum_uric_acid", "homocysteine", "hs_crp"],
    ?_, ?_, ?_, ?_⟩
  · rw [hrow, hrow2]
    norm_num [linScoreP, coefEgfr]
  · rw [hvals2]
    decide
  · rw [hvals]
    decide
  · rw [hvals, hvals2]
    intro hp
    have hmem : ("egfr", (30 : ℚ)) ∈ shapPairsP featureKeys [30, 0, 0, 0, 0, 0, 0, 0, 0, 0] := by
      decide
    exact absurd (hp.mem_iff.mpr hmem) (by decide)

/-- C8 (amended): the Inference and Attribution stages reorder the collected
input vector to match the loaded feature-identifier list rather than
assuming positional correspondence with the collector's insertion order:
position `i` of the row handed to the artifacts always holds the collector
value of the `i`-th listed feature, and the row — hence the positional
score and the positional contributions — depends only on the collector
dict's key-value mapping, so reordering the collector dict changes no
result.  Reordering the feature-identifier list itself, however, misaligns
the row against the positional artifacts and is not result-preserving (see
the counterexample). -/
theorem C8_input_reordered_to_feature_list (d d' : Row) (feats : List Feature)
    (m : LinearModelP) (mu : List ℚ)
    (hd : ∀ f, lookupD d f = lookupD d' f) :
    rowVals d feats = rowVals d' feats ∧
    (∀ i, i < feats.length →
      (rowVals d feats).getD i 0 = (lookupD d (feats.getD i "")).getD 0) ∧
    linScoreP m (rowVals d feats) = linScoreP m (rowVals d' feats) ∧
    linearShapValsP m.coef mu (rowVals d feats)
      = linearShapValsP m.coef mu (rowVals d' feats) := by
  have h0 : rowVals d feats = rowVals d' feats :=
    List.map_congr_left fun f _ => by rw [hd f]
  exact ⟨h0, fun i hi => rowVals_getD d feats i hi, by rw [h0], by rw [h0]⟩

/-- C8 witness: the collector dict written in two insertion orders with
equal lookups produces the same positional row, score and contributions. -/
theorem C8_input_reordered_to_feature_list_witness :
    rowVals [("a", 1), ("b", 2)] ["a", "b"] = rowVals [("b", 2), ("a", 1)] ["a", "b"] ∧
    linScoreP ⟨[1, 0], 0⟩ (rowVals [("a", 1), ("b", 2)] ["a", "b"])
      = linScoreP ⟨[1, 0], 0⟩ (rowVals [("b", 2), ("a", 1)] ["a", "b"]) :=
  have h := C8_input_reordered_to_feature_list [("a", 1), ("b", 2)] [("b", 2), ("a", 1)]
    ["a", "b"] ⟨[1, 0], 0⟩ [0, 0]
    (by
      intro f
      by_cases hA : "a" = f
      · by_cases hB : "b" = f
        · exact absurd (hA.trans hB.symm) (by decide)
        · simp [lookupD, hA, hB]
      · by_cases hB : "b" = f
        · simp [lookupD, hA, hB]
        · simp [lookupD, hA, hB])
  ⟨h.1, h.2.2.1⟩

end RiskCalc
